import Mathlib

/-!
Verification of the query-federation engine of the DataBeyoo-DS repository.

The development shallowly embeds the engine of `impl.py`:
* the graph (SPARQL) journal store is modelled as a list of journal records,
  and each `JournalQueryHandler` query is the meaning of its SPARQL text over
  those records (rows are flat bindings; `OPTIONAL` language patterns expand
  one row per language, unbound fields are `none`);
* the relational (SQLite) category store is modelled as its five tables, and
  each SQL query is the corresponding join with deterministic nested-loop
  order preserving table insertion order;
* `BasicQueryEngine` / `FullQueryEngine` methods are translated statement by
  statement, with Python set accumulation rendered as order-preserving
  duplicate removal.
-/

/-! ## Entity model (`IdentifiableEntity`, `Journal`, `Category`, `Area`) -/

structure Category where
  id : String
  quartile : Option String
deriving DecidableEq, Repr

structure Area where
  id : String
deriving DecidableEq, Repr

structure Journal where
  id : String
  title : String
  languages : List String
  publisher : Option String
  «seal» : Bool
  licence : Option String
  apc : Bool
  categories : List Category
  areas : List Area
deriving DecidableEq, Repr

/-- The possible results of `getEntityById`. -/
inductive Entity where
  | journal (j : Journal)
  | category (c : Category)
  | area (a : Area)
deriving DecidableEq, Repr

/-! ## Generic helpers -/

/-- Order-preserving duplicate removal (first occurrence wins): the
deterministic stand-in for SQL `DISTINCT` and for Python `set` accumulation. -/
def distinctAux {α : Type} [DecidableEq α] : List α → List α → List α
  | _, [] => []
  | seen, x :: xs => if x ∈ seen then distinctAux seen xs else x :: distinctAux (x :: seen) xs

def distinct {α : Type} [DecidableEq α] (l : List α) : List α := distinctAux [] l

/-- ASCII lowering, the model of Python `str.lower` and SPARQL `LCASE`. -/
def lowerStr (s : String) : String := String.mk (s.data.map Char.toLower)

def lastSegAux : List Char → List Char → List Char
  | [], acc => acc.reverse
  | c :: cs, acc => if c = '/' then lastSegAux cs [] else lastSegAux cs (c :: acc)

/-- The model of Python `uri.split('/')[-1]`, deriving a journal id from its URI. -/
def lastSeg (s : String) : String := String.mk (lastSegAux s.data [])

def startsWithChars : List Char → List Char → Bool
  | _, [] => true
  | [], _ :: _ => false
  | c :: cs, p :: ps => decide (c = p) && startsWithChars cs ps

def hasSubChars (p : List Char) : List Char → Bool
  | [] => p.isEmpty
  | c :: cs => startsWithChars (c :: cs) p || hasSubChars p cs

/-- Case-insensitive substring test, the model of
`CONTAINS(LCASE(x), LCASE(pat))` in the store-side SPARQL filters. -/
def containsCI (s pat : String) : Bool := hasSubChars (lowerStr pat).data (lowerStr s).data

/-- The engine's boolean parsing `str(row.get(field, 'false')).lower() == 'true'`:
a missing binding (or a `None` value) parses to `false`. -/
def parseBoolStr : Option String → Bool
  | none => false
  | some s => decide (lowerStr s = "true")

/-- The engine's language hydration: a single-element list when the row carries
a (truthy, i.e. non-empty) language value, the empty list otherwise. -/
def langsOf : Option String → List String
  | none => []
  | some l => if l = "" then [] else [l]

/-! ## Graph journal store (`JournalQueryHandler`)

A store handle is modelled by the journal records behind its SPARQL endpoint:
each record is one `schema:Periodical` subject with its `dc:title`, its
`dc:identifier` triples, its `dc:language` triples, and optional
`dc:publisher` / `dc:license` / `schema:doajSeal` / `schema:apc` triples. -/

structure JournalRecord where
  uri : String
  title : String
  identifiers : List String
  languages : List String
  publisher : Option String
  license : Option String
  «seal» : Option String
  apc : Option String
deriving DecidableEq, Repr

/-- One flat SPARQL binding row, as post-processed by the handler
(each selected variable's value, `none` when unbound). -/
structure JournalRow where
  journal : String
  title : String
  language : Option String
  publisher : Option String
  license : Option String
  «seal» : Option String
  apc : Option String
deriving DecidableEq, Repr

structure JournalQueryHandler where
  records : List JournalRecord
deriving DecidableEq, Repr

/-- Binding-row expansion of one record: the `OPTIONAL language` pattern yields
one row per language triple, or a single row with the variable unbound. -/
def recordRows (r : JournalRecord) : List JournalRow :=
  (match r.languages with
   | [] => ([none] : List (Option String))
   | ls => ls.map some).map
    (fun lo => { journal := r.uri, title := r.title, language := lo,
                 publisher := r.publisher, license := r.license,
                 «seal» := r.«seal», apc := r.apc })

/-- Like `recordRows` but with the `apc` variable unbound: in the
`getJournalsWithAPC` query `?apc` occurs only in the `SELECT` clause, never in
a graph pattern, so it is never bound. -/
def recordRowsApcUnbound (r : JournalRecord) : List JournalRow :=
  (recordRows r).map (fun row => { row with apc := none })

/-- Like `recordRows` but with the `seal` variable unbound, matching the
`getJournalsWithDOAJSeal` query where `?seal` is never bound. -/
def recordRowsSealUnbound (r : JournalRecord) : List JournalRow :=
  (recordRows r).map (fun row => { row with «seal» := none })

/-- `JournalQueryHandler.getById`: rows of periodicals carrying `dc:identifier` equal to `id`. -/
def JournalQueryHandler.getById (h : JournalQueryHandler) (id : String) : List JournalRow :=
  (h.records.filter (fun r => decide (id ∈ r.identifiers))).flatMap recordRows

def JournalQueryHandler.getAllJournals (h : JournalQueryHandler) : List JournalRow :=
  h.records.flatMap recordRows

def JournalQueryHandler.getJournalsWithTitle (h : JournalQueryHandler) (pt : String) : List JournalRow :=
  (h.records.filter (fun r => containsCI r.title pt)).flatMap recordRows

/-- `getJournalsPublishedBy`: the publisher pattern is non-optional here, so
only records with a publisher match, filtered case-insensitively. -/
def JournalQueryHandler.getJournalsPublishedBy (h : JournalQueryHandler) (pn : String) : List JournalRow :=
  (h.records.filter (fun r =>
    match r.publisher with
    | some p => containsCI p pn
    | none => false)).flatMap recordRows

/-- `getJournalsWithLicense`: exact-match disjunction over the given license
values; with an empty set the built SPARQL `FILTER()` is malformed, the
endpoint answers non-200 and the handler degrades to an empty result. -/
def JournalQueryHandler.getJournalsWithLicense (h : JournalQueryHandler) (lics : List String) : List JournalRow :=
  if lics.isEmpty then []
  else
    (h.records.filter (fun r =>
      match r.license with
      | some l => decide (l ∈ lics)
      | none => false)).flatMap recordRows

def JournalQueryHandler.getJournalsWithAPC (h : JournalQueryHandler) : List JournalRow :=
  (h.records.filter (fun r => decide (r.apc = some "true"))).flatMap recordRowsApcUnbound

def JournalQueryHandler.getJournalsWithDOAJSeal (h : JournalQueryHandler) : List JournalRow :=
  (h.records.filter (fun r => decide (r.«seal» = some "true"))).flatMap recordRowsSealUnbound

/-- The inline `SELECT DISTINCT ?license` query issued by
`getJournalsInAreasWithLicense` against every journal store. -/
def JournalQueryHandler.getDistinctLicenses (h : JournalQueryHandler) : List String :=
  distinct (h.records.filterMap (fun r => r.license))

/-! ## Relational category store (`CategoryQueryHandler`)

A store handle is modelled by its SQLite database: the five tables created by
`CategoryUploadHandler`. -/

structure JCRow where
  journal_id : String
  category_id : String
  quartile : Option String
deriving DecidableEq, Repr

structure CARow where
  category_id : String
  area_id : String
deriving DecidableEq, Repr

structure CategoryQueryHandler where
  journals : List String
  categories : List String
  areas : List String
  journal_categories : List JCRow
  category_areas : List CARow
deriving DecidableEq, Repr

/-- One result row of `CategoryQueryHandler.getById` (both the category-probe
and the area-probe shape expose the columns `category_id`, `quartile`,
`area_id`; left-join misses are `NULL`). -/
structure CatRow where
  category_id : Option String
  quartile : Option String
  area_id : Option String
deriving DecidableEq, Repr

/-- The category-side query of `CategoryQueryHandler.getById`:
`categories c LEFT JOIN journal_categories jc ON c.id = jc.category_id
LEFT JOIN category_areas ca ON c.id = ca.category_id
LEFT JOIN areas a ON ca.area_id = a.id WHERE c.id = id`. -/
def catByIdRows (h : CategoryQueryHandler) (id : String) : List CatRow :=
  (h.categories.filter (fun c => decide (c = id))).flatMap (fun c =>
    let jcs := h.journal_categories.filter (fun jc => decide (jc.category_id = c))
    let jcOpts : List (Option JCRow) := if jcs.isEmpty then [none] else jcs.map some
    let cas := h.category_areas.filter (fun ca => decide (ca.category_id = c))
    let caOpts : List (Option CARow) := if cas.isEmpty then [none] else cas.map some
    jcOpts.flatMap (fun jc =>
      caOpts.flatMap (fun ca =>
        let aOpts : List (Option String) :=
          match ca with
          | none => [none]
          | some ca0 =>
            let matched := h.areas.filter (fun a => decide (a = ca0.area_id))
            if matched.isEmpty then [none] else matched.map some
        aOpts.map (fun a =>
          { category_id := some c,
            quartile := match jc with | none => none | some jc0 => jc0.quartile,
            area_id := a }))))

/-- The area-side fallback query of `CategoryQueryHandler.getById`:
`areas a LEFT JOIN category_areas ca ON a.id = ca.area_id
LEFT JOIN categories c ON ca.category_id = c.id
LEFT JOIN journal_categories jc ON c.id = jc.category_id WHERE a.id = id`. -/
def areaByIdRows (h : CategoryQueryHandler) (id : String) : List CatRow :=
  (h.areas.filter (fun a => decide (a = id))).flatMap (fun a =>
    let cas := h.category_areas.filter (fun ca => decide (ca.area_id = a))
    let caOpts : List (Option CARow) := if cas.isEmpty then [none] else cas.map some
    caOpts.flatMap (fun ca =>
      let cOpts : List (Option String) :=
        match ca with
        | none => [none]
        | some ca0 =>
          let matched := h.categories.filter (fun c => decide (c = ca0.category_id))
          if matched.isEmpty then [none] else matched.map some
      cOpts.flatMap (fun c =>
        let jcOpts : List (Option JCRow) :=
          match c with
          | none => [none]
          | some c0 =>
            let jcs := h.journal_categories.filter (fun jc => decide (jc.category_id = c0))
            if jcs.isEmpty then [none] else jcs.map some
        jcOpts.map (fun jc =>
          { area_id := some a,
            category_id := c,
            quartile := match jc with | none => none | some jc0 => jc0.quartile }))))

/-- `CategoryQueryHandler.getById`: the category-side result when it is
non-empty with a non-null leading `category_id`, otherwise the area-side
fallback result. -/
def CategoryQueryHandler.getById (h : CategoryQueryHandler) (id : String) : List CatRow :=
  let dfCat := catByIdRows h id
  match dfCat with
  | [] => areaByIdRows h id
  | r :: _ => if r.category_id = none then areaByIdRows h id else dfCat

/-- `CategoryQueryHandler.getAllAreas`: `SELECT DISTINCT id FROM areas`. -/
def CategoryQueryHandler.getAllAreas (h : CategoryQueryHandler) : List String :=
  distinct h.areas

/-! ## `BasicQueryEngine` -/

structure BasicQueryEngine where
  journalQuery : List JournalQueryHandler
  categoryQuery : List CategoryQueryHandler
deriving DecidableEq, Repr

/-- The universe of handles a caller may try to register: journal query
handles, category query handles, and anything else (e.g. upload handles). -/
inductive StoreHandle where
  | journalQ (h : JournalQueryHandler)
  | categoryQ (h : CategoryQueryHandler)
  | otherKind
deriving DecidableEq, Repr

/-- `addJournalHandler`: accepts exactly `JournalQueryHandler` instances,
appending them; anything else is rejected with `false` and no state change. -/
def BasicQueryEngine.addJournalHandler (e : BasicQueryEngine) (h : StoreHandle) :
    Bool × BasicQueryEngine :=
  match h with
  | .journalQ jh => (true, { e with journalQuery := e.journalQuery ++ [jh] })
  | _ => (false, e)

/-- `addCategoryHandler`: accepts exactly `CategoryQueryHandler` instances. -/
def BasicQueryEngine.addCategoryHandler (e : BasicQueryEngine) (h : StoreHandle) :
    Bool × BasicQueryEngine :=
  match h with
  | .categoryQ ch => (true, { e with categoryQuery := e.categoryQuery ++ [ch] })
  | _ => (false, e)

def BasicQueryEngine.cleanJournalHandlers (e : BasicQueryEngine) : Bool × BasicQueryEngine :=
  (true, { e with journalQuery := [] })

def BasicQueryEngine.cleanCategoryHandlers (e : BasicQueryEngine) : Bool × BasicQueryEngine :=
  (true, { e with categoryQuery := [] })

/-- `_getCategoriesForJournal`: per category store,
`SELECT DISTINCT c.id, jc.quartile FROM categories c JOIN journal_categories jc
ON c.id = jc.category_id WHERE jc.journal_id = jid`, each row made a `Category`. -/
def BasicQueryEngine.getCategoriesForJournal (e : BasicQueryEngine) (jid : String) : List Category :=
  e.categoryQuery.flatMap (fun h =>
    (distinct (h.categories.flatMap (fun c =>
      (h.journal_categories.filter (fun jc =>
        decide (jc.category_id = c ∧ jc.journal_id = jid))).map
          (fun jc => (c, jc.quartile))))).map
      (fun p => ({ id := p.1, quartile := p.2 } : Category)))

/-- `_getAreasForJournal`: per category store,
`SELECT DISTINCT a.id FROM areas a JOIN category_areas ca ON a.id = ca.area_id
JOIN categories c ON ca.category_id = c.id JOIN journal_categories jc
ON c.id = jc.category_id WHERE jc.journal_id = jid`. -/
def BasicQueryEngine.getAreasForJournal (e : BasicQueryEngine) (jid : String) : List Area :=
  e.categoryQuery.flatMap (fun h =>
    (distinct (h.areas.filter (fun a =>
      h.category_areas.any (fun ca =>
        decide (ca.area_id = a) && decide (ca.category_id ∈ h.categories) &&
        h.journal_categories.any (fun jc =>
          decide (jc.category_id = ca.category_id ∧ jc.journal_id = jid)))))).map
      (fun a => ({ id := a } : Area)))

/-- Construction of a `Journal` from one binding row, shared by `getEntityById`
and every bulk journal query: title, publisher and licence are copied from the
row, the seal and APC strings are parsed to booleans, the language becomes a
one-element list when truthy, and categories/areas are hydrated from the
category stores for the given journal id. -/
def BasicQueryEngine.buildJournalFromRow (e : BasicQueryEngine) (jid : String)
    (row : JournalRow) : Journal :=
  { id := jid,
    title := row.title,
    languages := langsOf row.language,
    publisher := row.publisher,
    «seal» := parseBoolStr row.«seal»,
    licence := row.license,
    apc := parseBoolStr row.apc,
    categories := e.getCategoriesForJournal jid,
    areas := e.getAreasForJournal jid }

/-- Phase 1 of `getEntityById`: walk the registered journal handlers in order
and hydrate the first non-empty `getById` result (its first row). -/
def BasicQueryEngine.journalProbe (e : BasicQueryEngine) (id : String) :
    List JournalQueryHandler → Option Journal
  | [] => none
  | h :: rest =>
    match h.getById id with
    | [] => e.journalProbe id rest
    | row :: _ => some (e.buildJournalFromRow id row)

/-- The engine's category-building rule: the quartile stays absent when every
row's quartile is null, otherwise it is the first row's quartile value. -/
def quartileOfRows (rows : List CatRow) : Option String :=
  if rows.all (fun r => r.quartile.isNone) then none
  else
    match rows with
    | [] => none
    | r :: _ => r.quartile

/-- The quartile carried by the first row of a result, absent for an empty result. -/
def headQuartile : List CatRow → Option String
  | [] => none
  | r :: _ => r.quartile

/-- Phase 2 of `getEntityById`: walk the category handlers in order; the first
whose result is non-empty with leading `category_id` equal to the requested id
yields a `Category`. -/
def BasicQueryEngine.categoryProbe (id : String) :
    List CategoryQueryHandler → Option Category
  | [] => none
  | h :: rest =>
    match h.getById id with
    | [] => BasicQueryEngine.categoryProbe id rest
    | r :: rs =>
      if r.category_id = some id then some { id := id, quartile := quartileOfRows (r :: rs) }
      else BasicQueryEngine.categoryProbe id rest

/-- Phase 3 of `getEntityById`: like phase 2 but on the leading `area_id`. -/
def BasicQueryEngine.areaProbe (id : String) :
    List CategoryQueryHandler → Option Area
  | [] => none
  | h :: rest =>
    match h.getById id with
    | [] => BasicQueryEngine.areaProbe id rest
    | r :: _ =>
      if r.area_id = some id then some { id := id }
      else BasicQueryEngine.areaProbe id rest

/-- `getEntityById`: journal probe, then category probe, then area probe, then `none`. -/
def BasicQueryEngine.getEntityById (e : BasicQueryEngine) (id : String) : Option Entity :=
  match e.journalProbe id e.journalQuery with
  | some j => some (.journal j)
  | none =>
    match BasicQueryEngine.categoryProbe id e.categoryQuery with
    | some c => some (.category c)
    | none =>
      match BasicQueryEngine.areaProbe id e.categoryQuery with
      | some a => some (.area a)
      | none => none

/-- `getAllJournals`: every store's rows in registration order; rows whose
journal URI is missing/empty are skipped, the rest are hydrated with the id
derived from the URI's last path segment. -/
def BasicQueryEngine.getAllJournals (e : BasicQueryEngine) : List Journal :=
  e.journalQuery.flatMap (fun h =>
    (h.getAllJournals).filterMap (fun row =>
      if row.journal = "" then none
      else some (e.buildJournalFromRow (lastSeg row.journal) row)))

def BasicQueryEngine.getJournalsWithTitle (e : BasicQueryEngine) (pt : String) : List Journal :=
  e.journalQuery.flatMap (fun h =>
    (h.getJournalsWithTitle pt).map (fun row =>
      e.buildJournalFromRow (lastSeg row.journal) row))

def BasicQueryEngine.getJournalsPublishedBy (e : BasicQueryEngine) (pn : String) : List Journal :=
  e.journalQuery.flatMap (fun h =>
    (h.getJournalsPublishedBy pn).map (fun row =>
      e.buildJournalFromRow (lastSeg row.journal) row))

def BasicQueryEngine.getJournalsWithLicense (e : BasicQueryEngine) (lics : List String) : List Journal :=
  e.journalQuery.flatMap (fun h =>
    (h.getJournalsWithLicense lics).map (fun row =>
      e.buildJournalFromRow (lastSeg row.journal) row))

/-- `getJournalsWithAPC`: each row is hydrated as usual except that the `apc`
flag of the constructed `Journal` is the literal `True`, not a row field. -/
def BasicQueryEngine.getJournalsWithAPC (e : BasicQueryEngine) : List Journal :=
  e.journalQuery.flatMap (fun h =>
    (h.getJournalsWithAPC).map (fun row =>
      { e.buildJournalFromRow (lastSeg row.journal) row with apc := true }))

/-- `getJournalsWithDOAJSeal`: each row is hydrated as usual except that the
`seal` flag of the constructed `Journal` is the literal `True`. -/
def BasicQueryEngine.getJournalsWithDOAJSeal (e : BasicQueryEngine) : List Journal :=
  e.journalQuery.flatMap (fun h =>
    (h.getJournalsWithDOAJSeal).map (fun row =>
      { e.buildJournalFromRow (lastSeg row.journal) row with «seal» := true }))

/-! ## `FullQueryEngine` composite queries -/

/-- SQL `quartile IN (set)` membership: a `NULL` quartile never matches. -/
def quartileMem (q : Option String) (qs : List String) : Bool :=
  match q with
  | some v => decide (v ∈ qs)
  | none => false

/-- The Python guard `if journal and isinstance(journal, Journal)`. -/
def journalKeep : Option Entity → Option Journal
  | some (.journal j) => some j
  | _ => none

/-- The diamond post-filter
`if journal and isinstance(journal, Journal) and not journal.hasAPC()`. -/
def diamondKeep : Option Entity → Option Journal
  | some (.journal j) => if j.apc then none else some j
  | _ => none

/-- The default category-id set of `getJournalsInCategoriesWithQuartile`:
`SELECT DISTINCT category_id FROM journal_categories` accumulated over every
category store. -/
def FullQueryEngine.allCategoriesKnown (e : BasicQueryEngine) : List String :=
  distinct (e.categoryQuery.flatMap (fun h =>
    distinct (h.journal_categories.map (fun jc => jc.category_id))))

/-- The default quartile set:
`SELECT DISTINCT quartile FROM journal_categories WHERE quartile IS NOT NULL`
accumulated over every category store. -/
def FullQueryEngine.allQuartilesKnown (e : BasicQueryEngine) : List String :=
  distinct (e.categoryQuery.flatMap (fun h =>
    distinct (h.journal_categories.filterMap (fun jc => jc.quartile))))

/-- The journal-id set of `getJournalsInCategoriesWithQuartile`:
`SELECT DISTINCT journal_id FROM journal_categories WHERE category_id IN cids
AND quartile IN qs`, accumulated over every category store. -/
def FullQueryEngine.matchingJournalIds (e : BasicQueryEngine) (cids qs : List String) :
    List String :=
  distinct (e.categoryQuery.flatMap (fun h =>
    distinct ((h.journal_categories.filter (fun jc =>
      decide (jc.category_id ∈ cids) && quartileMem jc.quartile qs)).map
        (fun jc => jc.journal_id))))

/-- `getJournalsInCategoriesWithQuartile`: default-expand empty filter sets,
join, then hydrate each journal id via `getEntityById`, keeping `Journal`s. -/
def FullQueryEngine.getJournalsInCategoriesWithQuartile (e : BasicQueryEngine)
    (category_ids quartiles : List String) : List Journal :=
  let cids := if category_ids.isEmpty then FullQueryEngine.allCategoriesKnown e else category_ids
  let qs := if quartiles.isEmpty then FullQueryEngine.allQuartilesKnown e else quartiles
  (FullQueryEngine.matchingJournalIds e cids qs).filterMap
    (fun jid => journalKeep (e.getEntityById jid))

/-- The default area-id set: `getAllAreas` accumulated over every category store. -/
def FullQueryEngine.allAreasKnown (e : BasicQueryEngine) : List String :=
  distinct (e.categoryQuery.flatMap (fun h => h.getAllAreas))

/-- The default license set: the inline `SELECT DISTINCT ?license` query
accumulated over every journal store. -/
def FullQueryEngine.allLicensesKnown (e : BasicQueryEngine) : List String :=
  distinct (e.journalQuery.flatMap (fun h => h.getDistinctLicenses))

/-- One category store's contribution to the area-membership set:
`SELECT DISTINCT jc.journal_id FROM journal_categories jc JOIN categories c ON
jc.category_id = c.id JOIN category_areas ca ON c.id = ca.category_id JOIN
areas a ON ca.area_id = a.id WHERE a.id IN aids`. -/
def journalIdsInAreasStore (h : CategoryQueryHandler) (aids : List String) : List String :=
  distinct ((h.journal_categories.filter (fun jc =>
    decide (jc.category_id ∈ h.categories) &&
    h.category_areas.any (fun ca =>
      decide (ca.category_id = jc.category_id) && decide (ca.area_id ∈ h.areas) &&
      decide (ca.area_id ∈ aids)))).map (fun jc => jc.journal_id))

/-- The set of journal ids reachable from the given areas via the
area-to-category-to-journal join, accumulated over every category store. -/
def FullQueryEngine.journalIdsInAreas (e : BasicQueryEngine) (aids : List String) : List String :=
  distinct (e.categoryQuery.flatMap (fun h => journalIdsInAreasStore h aids))

/-- The default-expanded area set used by `getJournalsInAreasWithLicense`. -/
def FullQueryEngine.expandAreaIds (e : BasicQueryEngine) (area_ids : List String) : List String :=
  if area_ids.isEmpty then FullQueryEngine.allAreasKnown e else area_ids

/-- `getJournalsInAreasWithLicense`: compute the area-membership id set, then
run the stores' license-filtered query and keep only rows whose derived
journal id is a member, hydrating those. -/
def FullQueryEngine.getJournalsInAreasWithLicense (e : BasicQueryEngine)
    (area_ids licenses : List String) : List Journal :=
  let aset := FullQueryEngine.journalIdsInAreas e (FullQueryEngine.expandAreaIds e area_ids)
  let lics := if licenses.isEmpty then FullQueryEngine.allLicensesKnown e else licenses
  e.journalQuery.flatMap (fun h =>
    (h.getJournalsWithLicense lics).filterMap (fun row =>
      let jid := lastSeg row.journal
      if jid ∈ aset then some (e.buildJournalFromRow jid row) else none))

/-- The default category-id set of the diamond query:
`SELECT DISTINCT id FROM categories` accumulated over every category store. -/
def FullQueryEngine.allCategoryTableIds (e : BasicQueryEngine) : List String :=
  distinct (e.categoryQuery.flatMap (fun h => distinct h.categories))

/-- One category store's contribution to the three-way join of the diamond
query: journal ids whose (category, quartile) pairing lies in the given
category set and quartile set, with the category reaching one of the given
areas. -/
def journalIdsThreeWayStore (h : CategoryQueryHandler)
    (aids cids qs : List String) : List String :=
  distinct ((h.journal_categories.filter (fun jc =>
    decide (jc.category_id ∈ h.categories) &&
    decide (jc.category_id ∈ cids) &&
    quartileMem jc.quartile qs &&
    h.category_areas.any (fun ca =>
      decide (ca.category_id = jc.category_id) && decide (ca.area_id ∈ h.areas) &&
      decide (ca.area_id ∈ aids)))).map (fun jc => jc.journal_id))

/-- `getDiamondJournalsInAreasAndCategoriesWithQuartile`: default-expand all
three dimensions, run the three-way join, hydrate via `getEntityById`, and
keep only `Journal`s whose APC flag is false. -/
def FullQueryEngine.getDiamondJournalsInAreasAndCategoriesWithQuartile
    (e : BasicQueryEngine) (area_ids category_ids quartiles : List String) : List Journal :=
  let aids := if area_ids.isEmpty then FullQueryEngine.allAreasKnown e else area_ids
  let cids := if category_ids.isEmpty then FullQueryEngine.allCategoryTableIds e else category_ids
  let qs := if quartiles.isEmpty then FullQueryEngine.allQuartilesKnown e else quartiles
  let jids := distinct (e.categoryQuery.flatMap (fun h => journalIdsThreeWayStore h aids cids qs))
  jids.filterMap (fun jid => diamondKeep (e.getEntityById jid))

/-! ## Specification-side helper definitions used by the theorems -/

/-- The first row of a handler result (a dummy row for an empty result; only
used beneath a non-emptiness guard). -/
def headRowD : List JournalRow → JournalRow
  | [] => { journal := "", title := "", language := none, publisher := none,
            license := none, «seal» := none, apc := none }
  | r :: _ => r

/-- Whether a category store's `getById` result hits as a *category* probe:
non-empty with leading `category_id` equal to the requested id. -/
def catProbeHit (h : CategoryQueryHandler) (id : String) : Bool :=
  match h.getById id with
  | [] => false
  | r :: _ => decide (r.category_id = some id)

/-- Whether a category store's `getById` result hits as an *area* probe. -/
def areaProbeHit (h : CategoryQueryHandler) (id : String) : Bool :=
  match h.getById id with
  | [] => false
  | r :: _ => decide (r.area_id = some id)

/-- One store's hydrated contribution to `getAllJournals`: its rows with a
non-empty journal URI, each built into a `Journal`. -/
def hydratedAllJournals (e : BasicQueryEngine) (h : JournalQueryHandler) : List Journal :=
  (h.getAllJournals).filterMap (fun row =>
    if row.journal = "" then none
    else some (e.buildJournalFromRow (lastSeg row.journal) row))

/-- The spec's reading of row hydration for bulk journal queries: title,
publisher, licence, seal and apc taken from the row (booleans via the
bool-as-string parse), languages a one-element list when the row carries a
language. -/
abbrev takenDirectly (j : Journal) (row : JournalRow) : Prop :=
  j.title = row.title ∧ j.publisher = row.publisher ∧ j.licence = row.license ∧
  j.«seal» = parseBoolStr row.«seal» ∧ j.apc = parseBoolStr row.apc ∧
  j.languages = langsOf row.language

/-- Row hydration as `getJournalsWithAPC` actually performs it: every field
from the row except `apc`, which is forced to `true`. -/
abbrev takenDirectlyApcForced (j : Journal) (row : JournalRow) : Prop :=
  j.title = row.title ∧ j.publisher = row.publisher ∧ j.licence = row.license ∧
  j.«seal» = parseBoolStr row.«seal» ∧ j.apc = true ∧
  j.languages = langsOf row.language

/-- Row hydration as `getJournalsWithDOAJSeal` actually performs it: every
field from the row except `seal`, which is forced to `true`. -/
abbrev takenDirectlySealForced (j : Journal) (row : JournalRow) : Prop :=
  j.title = row.title ∧ j.publisher = row.publisher ∧ j.licence = row.license ∧
  j.«seal» = true ∧ j.apc = parseBoolStr row.apc ∧
  j.languages = langsOf row.language

/-! ## Concrete sample stores (the spec §8 scenario) used by the witnesses -/

/-- A diamond journal record (`apc = false`), identified by its ISSN. -/
def sampleRecordD : JournalRecord :=
  { uri := "http://example.org/journal/1234-5678", title := "Math Journal",
    identifiers := ["1234-5678"], languages := ["English"],
    publisher := some "ACME", license := some "CC BY",
    «seal» := some "true", apc := some "false" }

/-- A category store linking journal `1234-5678` to category `COMP` with
quartile `Q1`, and `COMP` to area `1700`. -/
def sampleCatStore : CategoryQueryHandler :=
  { journals := ["1234-5678"], categories := ["COMP"], areas := ["1700"],
    journal_categories := [⟨"1234-5678", "COMP", some "Q1"⟩],
    category_areas := [⟨"COMP", "1700"⟩] }

def engineD : BasicQueryEngine :=
  { journalQuery := [⟨[sampleRecordD]⟩], categoryQuery := [sampleCatStore] }

/-- The hydrated diamond journal produced by `engineD`. -/
def journalD : Journal :=
  { id := "1234-5678", title := "Math Journal", languages := ["English"],
    publisher := some "ACME", «seal» := true, licence := some "CC BY",
    apc := false, categories := [⟨"COMP", some "Q1"⟩], areas := [⟨"1700"⟩] }

/-- A record with `apc` and `seal` stored as `"true"`. -/
def sampleRecordA : JournalRecord :=
  { uri := "http://example.org/journal/J1", title := "Math Journal",
    identifiers := ["9999-0001"], languages := ["English"],
    publisher := some "ACME", license := some "CC BY",
    «seal» := some "true", apc := some "true" }

def engineA : BasicQueryEngine :=
  { journalQuery := [⟨[sampleRecordA]⟩], categoryQuery := [] }

/-- The hydrated journal produced by `engineA`. -/
def journalA : Journal :=
  { id := "J1", title := "Math Journal", languages := ["English"],
    publisher := some "ACME", «seal» := true, licence := some "CC BY",
    apc := true, categories := [], areas := [] }

/-! ## Claim theorems -/

/-- C1: an empty `categoryIds` set is treated as unrestricted (replaced by the
full distinct category-id set known to the category stores) and an empty
`quartiles` set is treated as unrestricted (replaced by the full distinct
non-null quartile set), so `getJournalsInCategoriesWithQuartile ∅ ∅` returns
the same journals as calling it with those full sets passed explicitly. -/
theorem getJournalsInCategoriesWithQuartile_empty_means_unrestricted
    (e : BasicQueryEngine) :
    FullQueryEngine.getJournalsInCategoriesWithQuartile e [] [] =
      FullQueryEngine.getJournalsInCategoriesWithQuartile e
        (FullQueryEngine.allCategoriesKnown e) (FullQueryEngine.allQuartilesKnown e) := by
  unfold FullQueryEngine.getJournalsInCategoriesWithQuartile
  simp only [List.isEmpty_nil, if_true, ite_self]

/-- `diamondKeep` only lets through journals whose APC flag is false. -/
theorem diamondKeep_apc_false {o : Option Entity} {j : Journal}
    (h : diamondKeep o = some j) : j.apc = false := by
  match o with
  | none => simp [diamondKeep] at h
  | some (.category c) => simp [diamondKeep] at h
  | some (.area a) => simp [diamondKeep] at h
  | some (.journal j0) =>
    by_cases hA : j0.apc
    · simp [diamondKeep, hA] at h
    · simp [diamondKeep, hA] at h
      subst h
      simpa using hA

/-- C2: every journal returned by
`getDiamondJournalsInAreasAndCategoriesWithQuartile`, for any arguments, has
`apc = false`: the post-filter keeps only `Journal` resolutions with a false
APC flag and silently discards everything else. -/
theorem diamond_journals_apc_false (e : BasicQueryEngine)
    (area_ids category_ids quartiles : List String) (j : Journal)
    (hj : j ∈ FullQueryEngine.getDiamondJournalsInAreasAndCategoriesWithQuartile
            e area_ids category_ids quartiles) :
    j.apc = false := by
  simp only [FullQueryEngine.getDiamondJournalsInAreasAndCategoriesWithQuartile,
    List.mem_filterMap] at hj
  obtain ⟨jid, _, hkeep⟩ := hj
  exact diamondKeep_apc_false hkeep

theorem diamond_journals_apc_false_witness :
    journalD ∈ FullQueryEngine.getDiamondJournalsInAreasAndCategoriesWithQuartile
        engineD ["1700"] ["COMP"] ["Q1"] ∧
      journalD.apc = false :=
  ⟨by decide,
   diamond_journals_apc_false engineD ["1700"] ["COMP"] ["Q1"] journalD (by decide)⟩

/-- C9: registration returns true and appends the handle exactly when the
handle matches the expected store kind, and returns false leaving the registry
unchanged otherwise; a mismatched handle is never silently accepted and the
check never raises. -/
theorem addHandler_capability_check (e : BasicQueryEngine) (h : StoreHandle) :
    (e.addJournalHandler h =
      match h with
      | .journalQ jh => (true, { e with journalQuery := e.journalQuery ++ [jh] })
      | .categoryQ _ => (false, e)
      | .otherKind => (false, e)) ∧
    (e.addCategoryHandler h =
      match h with
      | .categoryQ ch => (true, { e with categoryQuery := e.categoryQuery ++ [ch] })
      | .journalQ _ => (false, e)
      | .otherKind => (false, e)) := by
  cases h <;> exact ⟨rfl, rfl⟩

/-- C6: with two journal-store handles registered, `getAllJournals` is the
concatenation of the two stores' hydrated results in registration order, with
no de-duplication (so the output length is the sum of the two contributions
even when the stores overlap). -/
theorem getAllJournals_concat_two_stores (h1 h2 : JournalQueryHandler)
    (cs : List CategoryQueryHandler) :
    BasicQueryEngine.getAllJournals ⟨[h1, h2], cs⟩ =
        hydratedAllJournals ⟨[h1, h2], cs⟩ h1 ++ hydratedAllJournals ⟨[h1, h2], cs⟩ h2 ∧
      (BasicQueryEngine.getAllJournals ⟨[h1, h2], cs⟩).length =
        (hydratedAllJournals ⟨[h1, h2], cs⟩ h1).length +
          (hydratedAllJournals ⟨[h1, h2], cs⟩ h2).length := by
  have hconcat : BasicQueryEngine.getAllJournals ⟨[h1, h2], cs⟩ =
      hydratedAllJournals ⟨[h1, h2], cs⟩ h1 ++ hydratedAllJournals ⟨[h1, h2], cs⟩ h2 := by
    simp [BasicQueryEngine.getAllJournals, hydratedAllJournals]
  exact ⟨hconcat, by rw [hconcat, List.length_append]⟩

/-- C10: every journal returned by `getJournalsWithAPC` has its APC flag true
and every journal returned by `getJournalsWithDOAJSeal` has its seal flag
true, by construction, regardless of the row contents. -/
theorem journalsWithAPC_and_seal_forced_true (e : BasicQueryEngine) (j1 j2 : Journal) :
    (j1 ∈ e.getJournalsWithAPC → j1.apc = true) ∧
    (j2 ∈ e.getJournalsWithDOAJSeal → j2.«seal» = true) := by
  constructor
  · intro h1
    simp only [BasicQueryEngine.getJournalsWithAPC, List.mem_flatMap, List.mem_map] at h1
    obtain ⟨h, _, row, _, rfl⟩ := h1
    rfl
  · intro h2
    simp only [BasicQueryEngine.getJournalsWithDOAJSeal, List.mem_flatMap, List.mem_map] at h2
    obtain ⟨h, _, row, _, rfl⟩ := h2
    rfl

theorem journalsWithAPC_and_seal_forced_true_witness :
    journalA ∈ engineA.getJournalsWithAPC ∧ journalA.apc = true ∧
      journalA ∈ engineA.getJournalsWithDOAJSeal ∧ journalA.«seal» = true :=
  ⟨by decide,
   (journalsWithAPC_and_seal_forced_true engineA journalA journalA).1 (by decide),
   by decide,
   (journalsWithAPC_and_seal_forced_true engineA journalA journalA).2 (by decide)⟩

/-- C3: every journal returned by `getJournalsInAreasWithLicense` has an id in
the journal-id set reachable from the (possibly default-expanded) area set via
the area-to-category-to-journal join; matching the license filter alone is
never enough. -/
theorem journalsInAreasWithLicense_area_membership (e : BasicQueryEngine)
    (area_ids licenses : List String) (j : Journal)
    (hj : j ∈ FullQueryEngine.getJournalsInAreasWithLicense e area_ids licenses) :
    j.id ∈ FullQueryEngine.journalIdsInAreas e (FullQueryEngine.expandAreaIds e area_ids) := by
  simp only [FullQueryEngine.getJournalsInAreasWithLicense, List.mem_flatMap,
    List.mem_filterMap] at hj
  obtain ⟨h, _, row, _, hkeep⟩ := hj
  split at hkeep
  next hmem =>
    cases hkeep
    exact hmem
  next hmem =>
    cases hkeep

theorem journalsInAreasWithLicense_area_membership_witness :
    journalD ∈ FullQueryEngine.getJournalsInAreasWithLicense engineD ["1700"] ["CC BY"] ∧
      journalD.id ∈ FullQueryEngine.journalIdsInAreas engineD
        (FullQueryEngine.expandAreaIds engineD ["1700"]) :=
  ⟨by decide,
   journalsInAreasWithLicense_area_membership engineD ["1700"] ["CC BY"] journalD (by decide)⟩

/-- When every journal handler's lookup is empty, phase 1 finds nothing. -/
theorem journalProbe_none_of_empty (e : BasicQueryEngine) (id : String)
    (l : List JournalQueryHandler) (hl : ∀ h ∈ l, h.getById id = []) :
    e.journalProbe id l = none := by
  induction l with
  | nil => rfl
  | cons h rest ih =>
    have h0 : h.getById id = [] := hl h (by simp)
    simp only [BasicQueryEngine.journalProbe, h0]
    exact ih (fun s hs => hl s (by simp [hs]))

/-- When no row of any category handler's lookup matches the id as a category,
phase 2 finds nothing. -/
theorem categoryProbe_none_of_no_hit (id : String) (l : List CategoryQueryHandler)
    (hl : ∀ h ∈ l, ∀ r ∈ h.getById id, ¬ r.category_id = some id) :
    BasicQueryEngine.categoryProbe id l = none := by
  induction l with
  | nil => rfl
  | cons h rest ih =>
    have hrec := ih (fun s hs => hl s (by simp [hs]))
    cases hrows : h.getById id with
    | nil =>
      simp only [BasicQueryEngine.categoryProbe, hrows]
      exact hrec
    | cons r rs =>
      have hr : ¬ r.category_id = some id :=
        hl h (by simp) r (by rw [hrows]; exact List.mem_cons_self r rs)
      simp only [BasicQueryEngine.categoryProbe, hrows, if_neg hr]
      exact hrec

/-- When no row of any category handler's lookup matches the id as an area,
phase 3 finds nothing. -/
theorem areaProbe_none_of_no_hit (id : String) (l : List CategoryQueryHandler)
    (hl : ∀ h ∈ l, ∀ r ∈ h.getById id, ¬ r.area_id = some id) :
    BasicQueryEngine.areaProbe id l = none := by
  induction l with
  | nil => rfl
  | cons h rest ih =>
    have hrec := ih (fun s hs => hl s (by simp [hs]))
    cases hrows : h.getById id with
    | nil =>
      simp only [BasicQueryEngine.areaProbe, hrows]
      exact hrec
    | cons r rs =>
      have hr : ¬ r.area_id = some id :=
        hl h (by simp) r (by rw [hrows]; exact List.mem_cons_self r rs)
      simp only [BasicQueryEngine.areaProbe, hrows, if_neg hr]
      exact hrec

/-- C5: for an id registered in no store (all journal probes empty, no
category-store row carrying it as category or area identifier),
`getEntityById` returns `none` rather than failing. -/
theorem getEntityById_unknown_returns_none (e : BasicQueryEngine) (id : String)
    (hJ : ∀ h ∈ e.journalQuery, h.getById id = [])
    (hC : ∀ h ∈ e.categoryQuery, ∀ r ∈ h.getById id,
      ¬ r.category_id = some id ∧ ¬ r.area_id = some id) :
    e.getEntityById id = none := by
  unfold BasicQueryEngine.getEntityById
  rw [journalProbe_none_of_empty e id e.journalQuery hJ,
    categoryProbe_none_of_no_hit id e.categoryQuery
      (fun h hh r hr => (hC h hh r hr).1),
    areaProbe_none_of_no_hit id e.categoryQuery
      (fun h hh r hr => (hC h hh r hr).2)]

theorem getEntityById_unknown_returns_none_witness :
    (∀ h ∈ engineD.journalQuery, h.getById "zzz" = []) ∧
    (∀ h ∈ engineD.categoryQuery, ∀ r ∈ h.getById "zzz",
      ¬ r.category_id = some "zzz" ∧ ¬ r.area_id = some "zzz") ∧
    BasicQueryEngine.getEntityById engineD "zzz" = none :=
  ⟨by decide, by decide,
   getEntityById_unknown_returns_none engineD "zzz" (by decide) (by decide)⟩

/-- Phase 1 is first-match-wins over the journal handlers in registration
order: it equals `find?` of the first handler with a non-empty lookup, whose
first row is hydrated. -/
theorem journalProbe_eq_find (e : BasicQueryEngine) (id : String)
    (l : List JournalQueryHandler) :
    e.journalProbe id l =
      (l.find? (fun h => !(h.getById id).isEmpty)).map
        (fun h => e.buildJournalFromRow id (headRowD (h.getById id))) := by
  induction l with
  | nil => rfl
  | cons h rest ih =>
    cases hrows : h.getById id with
    | nil =>
      simp only [BasicQueryEngine.journalProbe, hrows, List.find?_cons,
        List.isEmpty_nil, Bool.not_true]
      exact ih
    | cons r rs =>
      simp only [BasicQueryEngine.journalProbe, hrows, List.find?_cons,
        List.isEmpty_cons, Bool.not_false, Option.map_some', headRowD]

/-- Phase 2 is first-match-wins over the category handlers in registration
order, matching on the leading row's category identifier. -/
theorem categoryProbe_eq_find (id : String) (l : List CategoryQueryHandler) :
    BasicQueryEngine.categoryProbe id l =
      (l.find? (fun h => catProbeHit h id)).map
        (fun h => ({ id := id, quartile := quartileOfRows (h.getById id) } : Category)) := by
  induction l with
  | nil => rfl
  | cons h rest ih =>
    cases hrows : h.getById id with
    | nil =>
      simp only [BasicQueryEngine.categoryProbe, hrows, List.find?_cons, catProbeHit]
      exact ih
    | cons r rs =>
      by_cases hc : r.category_id = some id
      · simp [BasicQueryEngine.categoryProbe, hrows, List.find?_cons, catProbeHit, hc]
      · have hd : decide (r.category_id = some id) = false := decide_eq_false hc
        simp only [BasicQueryEngine.categoryProbe, hrows, List.find?_cons, catProbeHit,
          hd, if_neg hc]
        simpa only [catProbeHit] using ih

/-- Phase 3 is first-match-wins over the category handlers in registration
order, matching on the leading row's area identifier. -/
theorem areaProbe_eq_find (id : String) (l : List CategoryQueryHandler) :
    BasicQueryEngine.areaProbe id l =
      (l.find? (fun h => areaProbeHit h id)).map
        (fun _ => ({ id := id } : Area)) := by
  induction l with
  | nil => rfl
  | cons h rest ih =>
    cases hrows : h.getById id with
    | nil =>
      simp only [BasicQueryEngine.areaProbe, hrows, List.find?_cons, areaProbeHit]
      exact ih
    | cons r rs =>
      by_cases ha : r.area_id = some id
      · simp [BasicQueryEngine.areaProbe, hrows, List.find?_cons, areaProbeHit, ha]
      · have hd : decide (r.area_id = some id) = false := decide_eq_false ha
        simp only [BasicQueryEngine.areaProbe, hrows, List.find?_cons, areaProbeHit,
          hd, if_neg ha]
        simpa only [areaProbeHit] using ih

/-- C4: `getEntityById` probes in fixed priority order with first match wins:
first the journal handlers (first non-empty lookup hydrated and returned),
then the category handlers as category probes, then the category handlers as
area probes; once one phase hits, later stores and phases are never consulted. -/
theorem getEntityById_probe_priority (e : BasicQueryEngine) (id : String) :
    e.getEntityById id =
      match e.journalQuery.find? (fun h => !(h.getById id).isEmpty) with
      | some h => some (.journal (e.buildJournalFromRow id (headRowD (h.getById id))))
      | none =>
        match e.categoryQuery.find? (fun h => catProbeHit h id) with
        | some h => some (.category { id := id, quartile := quartileOfRows (h.getById id) })
        | none =>
          match e.categoryQuery.find? (fun h => areaProbeHit h id) with
          | some _ => some (.area { id := id })
          | none => none := by
  unfold BasicQueryEngine.getEntityById
  rw [journalProbe_eq_find, categoryProbe_eq_find, areaProbe_eq_find]
  cases e.journalQuery.find? (fun h => !(h.getById id).isEmpty) with
  | some h => rfl
  | none =>
    cases e.categoryQuery.find? (fun h => catProbeHit h id) with
    | some h => rfl
    | none =>
      cases e.categoryQuery.find? (fun h => areaProbeHit h id) with
      | some h => rfl
      | none => rfl

/-- The engine's quartile rule collapses to: take the first row's quartile. -/
theorem quartileOfRows_eq_headQuartile (rows : List CatRow) :
    quartileOfRows rows = headQuartile rows := by
  cases rows with
  | nil => rfl
  | cons r rs =>
    by_cases hall : ((r :: rs).all (fun x => x.quartile.isNone) = true)
    · have hr : r.quartile = none := by
        have := (List.all_eq_true.mp hall) r (by simp)
        simpa using this
      simp [quartileOfRows, headQuartile, hall, hr]
    · simp [quartileOfRows, headQuartile, hall]

/-- C8: when `getEntityById` resolves an id as a category, the returned
`Category` carries the quartile of the first row of the first hitting
category store's result — in particular it is absent when all quartile values
in those rows are null. -/
theorem getEntityById_category_first_row_quartile (e : BasicQueryEngine) (id : String)
    (c : Category) (h : e.getEntityById id = some (.category c)) :
    ∃ hdl, e.categoryQuery.find? (fun d => catProbeHit d id) = some hdl ∧
      c.id = id ∧ c.quartile = headQuartile (hdl.getById id) ∧
      ((hdl.getById id).all (fun r => r.quartile.isNone) = true → c.quartile = none) := by
  unfold BasicQueryEngine.getEntityById at h
  cases hJ : e.journalProbe id e.journalQuery with
  | some j =>
    rw [hJ] at h
    simp at h
  | none =>
    rw [hJ] at h
    cases hC : BasicQueryEngine.categoryProbe id e.categoryQuery with
    | none =>
      rw [hC] at h
      cases hA : BasicQueryEngine.areaProbe id e.categoryQuery with
      | some a => rw [hA] at h; simp at h
      | none => rw [hA] at h; simp at h
    | some c0 =>
      rw [hC] at h
      have hcc : c0 = c := by simpa using h
      rw [categoryProbe_eq_find] at hC
      obtain ⟨hdl, hfind, hg⟩ := Option.map_eq_some'.mp hC
      refine ⟨hdl, hfind, ?_, ?_, ?_⟩
      · rw [← hcc, ← hg]
      · rw [← hcc, ← hg]
        exact quartileOfRows_eq_headQuartile _
      · intro hall
        rw [← hcc, ← hg]
        simp [quartileOfRows, hall]

theorem getEntityById_category_first_row_quartile_witness :
    BasicQueryEngine.getEntityById engineD "COMP" =
        some (.category ⟨"COMP", some "Q1"⟩) ∧
      ∃ hdl, engineD.categoryQuery.find? (fun d => catProbeHit d "COMP") = some hdl ∧
        (⟨"COMP", some "Q1"⟩ : Category).id = "COMP" ∧
        (⟨"COMP", some "Q1"⟩ : Category).quartile = headQuartile (hdl.getById "COMP") ∧
        ((hdl.getById "COMP").all (fun r => r.quartile.isNone) = true →
          (⟨"COMP", some "Q1"⟩ : Category).quartile = none) :=
  ⟨by decide,
   getEntityById_category_first_row_quartile engineD "COMP" ⟨"COMP", some "Q1"⟩ (by decide)⟩

/-- C7 fails as stated: at `engineA` (one record with `apc` and `seal` stored
as the string true) it is not the case that every bulk-query journal takes all
of title/publisher/licence/seal/apc directly from its row — the journal
returned by `getJournalsWithAPC` has `apc = true` while its row carries no
`apc` binding at all (`parseBoolStr none = false`), and symmetrically for
`getJournalsWithDOAJSeal`. -/
theorem bulkQueries_take_fields_directly_counterexample :
    ¬ ((∀ j ∈ engineA.getAllJournals, ∃ h ∈ engineA.journalQuery,
          ∃ row ∈ h.getAllJournals, takenDirectly j row) ∧
       (∀ j ∈ engineA.getJournalsWithTitle "math", ∃ h ∈ engineA.journalQuery,
          ∃ row ∈ h.getJournalsWithTitle "math", takenDirectly j row) ∧
       (∀ j ∈ engineA.getJournalsPublishedBy "acme", ∃ h ∈ engineA.journalQuery,
          ∃ row ∈ h.getJournalsPublishedBy "acme", takenDirectly j row) ∧
       (∀ j ∈ engineA.getJournalsWithLicense ["CC BY"], ∃ h ∈ engineA.journalQuery,
          ∃ row ∈ h.getJournalsWithLicense ["CC BY"], takenDirectly j row) ∧
       (∀ j ∈ engineA.getJournalsWithAPC, ∃ h ∈ engineA.journalQuery,
          ∃ row ∈ h.getJournalsWithAPC, takenDirectly j row) ∧
       (∀ j ∈ engineA.getJournalsWithDOAJSeal, ∃ h ∈ engineA.journalQuery,
          ∃ row ∈ h.getJournalsWithDOAJSeal, takenDirectly j row)) := by
  intro hcl
  exact absurd hcl.2.2.2.2.1 (by decide)

/-- C7 (amended): every journal produced by a bulk journal query comes from a
row of one of the registered stores, with title, publisher and licence taken
directly from the row, languages a single-element sequence exactly when the
row carries a language, and the seal/apc booleans parsed from the row —
except that `getJournalsWithAPC` forces `apc = true` and
`getJournalsWithDOAJSeal` forces `seal = true` by construction instead of
reading them from the row. -/
theorem bulkQueries_row_hydration (e : BasicQueryEngine) (pt pn : String)
    (ls : List String) (j1 j2 j3 j4 j5 j6 : Journal) :
    (j1 ∈ e.getAllJournals →
      ∃ h ∈ e.journalQuery, ∃ row ∈ h.getAllJournals, takenDirectly j1 row) ∧
    (j2 ∈ e.getJournalsWithTitle pt →
      ∃ h ∈ e.journalQuery, ∃ row ∈ h.getJournalsWithTitle pt, takenDirectly j2 row) ∧
    (j3 ∈ e.getJournalsPublishedBy pn →
      ∃ h ∈ e.journalQuery, ∃ row ∈ h.getJournalsPublishedBy pn, takenDirectly j3 row) ∧
    (j4 ∈ e.getJournalsWithLicense ls →
      ∃ h ∈ e.journalQuery, ∃ row ∈ h.getJournalsWithLicense ls, takenDirectly j4 row) ∧
    (j5 ∈ e.getJournalsWithAPC →
      ∃ h ∈ e.journalQuery, ∃ row ∈ h.getJournalsWithAPC, takenDirectlyApcForced j5 row) ∧
    (j6 ∈ e.getJournalsWithDOAJSeal →
      ∃ h ∈ e.journalQuery, ∃ row ∈ h.getJournalsWithDOAJSeal,
        takenDirectlySealForced j6 row) := by
  refine ⟨?_, ?_, ?_, ?_, ?_, ?_⟩
  · intro m1
    simp only [BasicQueryEngine.getAllJournals, List.mem_flatMap, List.mem_filterMap] at m1
    obtain ⟨h, hh, row, hrow, hkeep⟩ := m1
    refine ⟨h, hh, row, hrow, ?_⟩
    split at hkeep
    · cases hkeep
    · cases hkeep
      exact ⟨rfl, rfl, rfl, rfl, rfl, rfl⟩
  · intro m2
    simp only [BasicQueryEngine.getJournalsWithTitle, List.mem_flatMap, List.mem_map] at m2
    obtain ⟨h, hh, row, hrow, rfl⟩ := m2
    exact ⟨h, hh, row, hrow, rfl, rfl, rfl, rfl, rfl, rfl⟩
  · intro m3
    simp only [BasicQueryEngine.getJournalsPublishedBy, List.mem_flatMap, List.mem_map] at m3
    obtain ⟨h, hh, row, hrow, rfl⟩ := m3
    exact ⟨h, hh, row, hrow, rfl, rfl, rfl, rfl, rfl, rfl⟩
  · intro m4
    simp only [BasicQueryEngine.getJournalsWithLicense, List.mem_flatMap, List.mem_map] at m4
    obtain ⟨h, hh, row, hrow, rfl⟩ := m4
    exact ⟨h, hh, row, hrow, rfl, rfl, rfl, rfl, rfl, rfl⟩
  · intro m5
    simp only [BasicQueryEngine.getJournalsWithAPC, List.mem_flatMap, List.mem_map] at m5
    obtain ⟨h, hh, row, hrow, rfl⟩ := m5
    exact ⟨h, hh, row, hrow, rfl, rfl, rfl, rfl, rfl, rfl⟩
  · intro m6
    simp only [BasicQueryEngine.getJournalsWithDOAJSeal, List.mem_flatMap, List.mem_map] at m6
    obtain ⟨h, hh, row, hrow, rfl⟩ := m6
    exact ⟨h, hh, row, hrow, rfl, rfl, rfl, rfl, rfl, rfl⟩

theorem bulkQueries_row_hydration_witness :
    journalA ∈ engineA.getAllJournals ∧
    journalA ∈ engineA.getJournalsWithTitle "math" ∧
    journalA ∈ engineA.getJournalsPublishedBy "acme" ∧
    journalA ∈ engineA.getJournalsWithLicense ["CC BY"] ∧
    journalA ∈ engineA.getJournalsWithAPC ∧
    journalA ∈ engineA.getJournalsWithDOAJSeal ∧
    ((∃ h ∈ engineA.journalQuery, ∃ row ∈ h.getAllJournals, takenDirectly journalA row) ∧
     (∃ h ∈ engineA.journalQuery, ∃ row ∈ h.getJournalsWithTitle "math",
        takenDirectly journalA row) ∧
     (∃ h ∈ engineA.journalQuery, ∃ row ∈ h.getJournalsPublishedBy "acme",
        takenDirectly journalA row) ∧
     (∃ h ∈ engineA.journalQuery, ∃ row ∈ h.getJournalsWithLicense ["CC BY"],
        takenDirectly journalA row) ∧
     (∃ h ∈ engineA.journalQuery, ∃ row ∈ h.getJournalsWithAPC,
        takenDirectlyApcForced journalA row) ∧
     (∃ h ∈ engineA.journalQuery, ∃ row ∈ h.getJournalsWithDOAJSeal,
        takenDirectlySealForced journalA row)) := by
  have hth := bulkQueries_row_hydration engineA "math" "acme" ["CC BY"]
    journalA journalA journalA journalA journalA journalA
  exact ⟨by decide, by decide, by decide, by decide, by decide, by decide,
    hth.1 (by decide), hth.2.1 (by decide), hth.2.2.1 (by decide),
    hth.2.2.2.1 (by decide), hth.2.2.2.2.1 (by decide), hth.2.2.2.2.2 (by decide)⟩
